import Mathlib

/-!
Verification of the KYC fact-adaptation and rule-evaluation core of the
gorules-rule-engine repository.

Shallow embedding conventions:
* Python strings are Lean `String`s; ASCII case folding (`str.lower`,
  `str.upper`) is embedded as `pyLower` / `pyUpper` over the character list.
* Python floats appearing in the adapter (0-100 percentages, 0-1 scores)
  are embedded as rationals `ℚ`; the operations used (division by 100,
  `min`, `max`) are order-theoretic, so `ℚ` carries their behaviour.
* Python ints are `Int`.
* `dict.get` defaults are embedded with `Option` and `Option.getD`.
* Raised exceptions are embedded with `Except`; the adapter's two
  `except` branches (pydantic `ValidationError`, catch-all `Exception`),
  both of which re-raise `ValueError`, become the `AdaptationError` type.
-/

namespace BRE

/-! ## Python-style ASCII case folding (str.lower / str.upper) -/

/-- ASCII lower-casing of one character (`A`-`Z` shifted by 32, all other
characters unchanged), matching CPython `str.lower` on the ASCII range. -/
def pyCharLower (c : Char) : Char :=
  if 65 ≤ c.toNat ∧ c.toNat ≤ 90 then Char.ofNat (c.toNat + 32) else c

/-- ASCII upper-casing of one character (`a`-`z` shifted down by 32). -/
def pyCharUpper (c : Char) : Char :=
  if 97 ≤ c.toNat ∧ c.toNat ≤ 122 then Char.ofNat (c.toNat - 32) else c

/-- Embedding of CPython `str.lower` restricted to the ASCII fragment the
adapter feeds it (status codes, state codes, segments, hex identifiers). -/
def pyLower (s : String) : String := ⟨s.data.map pyCharLower⟩

/-- Embedding of CPython `str.upper` on the ASCII fragment. -/
def pyUpper (s : String) : String := ⟨s.data.map pyCharUpper⟩

/-! ## Canonical enumerations (app/domain/kyc/v1/models.py) -/

/-- `PANVerificationStatus` enum. -/
inductive PANVerificationStatus where
  | VERIFIED | NOT_VERIFIED | INVALID | PENDING | ERROR
deriving DecidableEq, Repr

/-- `CustomerState` enum. -/
inductive CustomerState where
  | ANDHRA_PRADESH | KARNATAKA | MAHARASHTRA | TAMIL_NADU | DELHI
  | WEST_BENGAL | GUJARAT | RAJASTHAN | UTTAR_PRADESH | TELANGANA | OTHER
deriving DecidableEq, Repr

/-- `CustomerType` enum. -/
inductive CustomerType where
  | RETAIL | PREMIUM | CORPORATE | GOVERNMENT
deriving DecidableEq, Repr

/-- `CIBILFetchStatus` enum. -/
inductive CIBILFetchStatus where
  | SUCCESS | FAILURE | NO_HISTORY | TIMEOUT
deriving DecidableEq, Repr

/-- `KYCEligibilityStatus` enum. -/
inductive KYCEligibilityStatus where
  | APPROVED | REJECTED | MANUAL_REVIEW | PENDING_DOCUMENTS
deriving DecidableEq, Repr

/-- `KYCRejectionReason` enum. -/
inductive KYCRejectionReason where
  | PAN_INVALID | PAN_NAME_MISMATCH | AGE_BELOW_THRESHOLD | CIBIL_SCORE_LOW
  | DUPLICATE_CUSTOMER | RESTRICTED_STATE | INCOMPLETE_DOCUMENTS
deriving DecidableEq, Repr

/-! ## Normalization tables (app/adapters/kyc_adapter.py, KYCFactAdapter) -/

/-- `KYCFactAdapter.KARZA_STATUS_MAP`. -/
def KARZA_STATUS_MAP : List (String × PANVerificationStatus) :=
  [("valid", .VERIFIED), ("invalid", .INVALID),
   ("pending", .PENDING), ("error", .ERROR)]

/-- `KYCFactAdapter.STATE_CODE_MAP`. -/
def STATE_CODE_MAP : List (String × CustomerState) :=
  [("AP", .ANDHRA_PRADESH), ("KA", .KARNATAKA), ("MH", .MAHARASHTRA),
   ("TN", .TAMIL_NADU), ("DL", .DELHI), ("WB", .WEST_BENGAL),
   ("GJ", .GUJARAT), ("RJ", .RAJASTHAN), ("UP", .UTTAR_PRADESH),
   ("TG", .TELANGANA)]

/-- `KYCFactAdapter.CUSTOMER_SEGMENT_MAP`. -/
def CUSTOMER_SEGMENT_MAP : List (String × CustomerType) :=
  [("retail", .RETAIL), ("premium", .PREMIUM),
   ("corporate", .CORPORATE), ("government", .GOVERNMENT)]

/-- `KYCFactAdapter.CIBIL_STATUS_MAP`. -/
def CIBIL_STATUS_MAP : List (String × CIBILFetchStatus) :=
  [("200", .SUCCESS), ("404", .NO_HISTORY),
   ("500", .FAILURE), ("timeout", .TIMEOUT)]

/-- Adapter line `KARZA_STATUS_MAP.get(karza_response.status.lower(), ERROR)`. -/
def normalizePanStatus (s : String) : PANVerificationStatus :=
  (KARZA_STATUS_MAP.lookup (pyLower s)).getD .ERROR

/-- Adapter line `STATE_CODE_MAP.get(customer_data.state_code.upper(), OTHER)`. -/
def normalizeState (s : String) : CustomerState :=
  (STATE_CODE_MAP.lookup (pyUpper s)).getD .OTHER

/-- Adapter line `CUSTOMER_SEGMENT_MAP.get(customer_data.segment.lower(), RETAIL)`. -/
def normalizeSegment (s : String) : CustomerType :=
  (CUSTOMER_SEGMENT_MAP.lookup (pyLower s)).getD .RETAIL

/-- Adapter line `CIBIL_STATUS_MAP.get(cibil_response.status_code, FAILURE)`;
note: no case folding is applied to the status code before the lookup. -/
def normalizeCibilStatus (s : String) : CIBILFetchStatus :=
  (CIBIL_STATUS_MAP.lookup s).getD .FAILURE

/-! ## Scale conversion (0-100 percentage to the canonical [0,1] domain) -/

/-- The clamp `min(max(y, 0.0), 1.0)` used by the adapter. -/
def clamp01 (y : ℚ) : ℚ := min (max y 0) 1

/-- Adapter expression `min(max(x / 100.0, 0.0), 1.0)` applied to
`name_match_percentage` and `match_score`. -/
def scaleTo01 (x : ℚ) : ℚ := clamp01 (x / 100)

/-! ## Age derivation from the date of birth -/

/-- Python tuple comparison `(today.month, today.day) < (dob.month, dob.day)`
(lexicographic). -/
def monthDayLt (m1 d1 m2 d2 : ℤ) : Bool :=
  decide (m1 < m2 ∨ (m1 = m2 ∧ d1 < d2))

/-- Adapter expression
`today.year - dob.year - ((today.month, today.day) < (dob.month, dob.day))`
(the Python bool coerces to 0 or 1). -/
def computeAge (todayY todayM todayD dobY dobM dobD : ℤ) : ℤ :=
  todayY - dobY - (if monthDayLt todayM todayD dobM dobD then 1 else 0)

/-! ## Correlation identifier: UUID pattern and the pydantic validator
(`KYCFactsV1.validate_correlation_id`) -/

/-- Character class `[a-f0-9]` under `re.IGNORECASE`, i.e. a hex digit
(`0`-`9`, `a`-`f`, `A`-`F`, stated on code points). -/
def isHexDigit (c : Char) : Bool :=
  decide ((48 ≤ c.toNat ∧ c.toNat ≤ 57) ∨ (97 ≤ c.toNat ∧ c.toNat ≤ 102) ∨
          (65 ≤ c.toNat ∧ c.toNat ≤ 70))

/-- Consume exactly `n` hex digits from the front of the character list,
returning the rest; `none` if fewer are available. -/
def hexRun : Nat → List Char → Option (List Char)
  | 0, rest => some rest
  | n + 1, c :: rest => if isHexDigit c then hexRun n rest else none
  | _ + 1, [] => none

/-- Consume a hyphen and then `n` hex digits. -/
def hyphenHexRun (n : Nat) : List Char → Option (List Char)
  | '-' :: rest => hexRun n rest
  | _ => none

/-- Exact match of the body of the validator's regular expression
`[a-f0-9]{8}-[a-f0-9]{4}-[a-f0-9]{4}-[a-f0-9]{4}-[a-f0-9]{12}`
(with `re.IGNORECASE`) against the whole string; a failed group
propagates as `none` through the `Option.bind` chain. -/
def uuidCore (s : String) : Bool :=
  match ((((hexRun 8 s.data).bind (hyphenHexRun 4)).bind
      (hyphenHexRun 4)).bind (hyphenHexRun 4)).bind (hyphenHexRun 12) with
  | none => false
  | some rest => rest.isEmpty

/-- Embedding of `re.match(r'^...$', v, re.IGNORECASE)` for the UUID
pattern: CPython's `$` matches at the end of the string or just before a
single newline at the end of the string, so a trailing `'\n'` after the
UUID body is also accepted. -/
def matchesUuidPattern (v : String) : Bool :=
  uuidCore v || (v.data.getLast? == some '\n' && uuidCore ⟨v.data.dropLast⟩)

/-- Canonical UUID textual form as the spec words it (refinement target,
stated independently of the validator's source): exactly the 8-4-4-4-12
lowercase-or-uppercase hex groups, nothing more. -/
def canonicalUuidForm (v : String) : Bool := uuidCore v

/-- Pydantic field validator `KYCFactsV1.validate_correlation_id`:
rejects when the regex does not match, otherwise returns `v.lower()`. -/
def validate_correlation_id (v : String) : Except String String :=
  if matchesUuidPattern v then .ok (pyLower v)
  else .error ("Invalid correlation_id format: " ++ v)

/-! ## Model of the standard UUID4 generator used for fresh correlation ids.
`str(uuid4())` is a standard-library call (not repository code); it is
embedded as a function of the generator's random nibbles. -/

/-- Lowercase hex digit for a nibble. -/
def hexDigitChar (n : Nat) : Char := "0123456789abcdef".data.getD (n % 16) '0'

/-- UUID variant character: one of `8`, `9`, `a`, `b`. -/
def uuidVariantChar (n : Nat) : Char := "89ab".data.getD (n % 4) '8'

/-- A run of `k` generated lowercase hex digits, drawn from the nibble
stream starting at offset `a`. -/
def uuidHexGroup (g : Nat → Nat) (a k : Nat) : List Char :=
  (List.range k).map fun i => hexDigitChar (g (a + i))

/-- The third UUID4 group: version nibble `4` then three random nibbles. -/
def uuidVersionGroup (g : Nat → Nat) : List Char :=
  hexDigitChar 4 :: uuidHexGroup g 13 3

/-- The fourth UUID4 group: variant nibble in `{8,9,a,b}` then three
random nibbles. -/
def uuidVariantGroup (g : Nat → Nat) : List Char :=
  uuidVariantChar (g 16) :: uuidHexGroup g 17 3

/-- Textual form of `str(uuid4())`: 8-4-4-4-12 lowercase hex groups with
the version nibble fixed to `4` and the variant nibble in `{8,9,a,b}`,
as produced by CPython's `uuid.uuid4`, parameterized by the random
nibble stream `g`. -/
def uuid4String (g : Nat → Nat) : String :=
  ⟨uuidHexGroup g 0 8 ++
   '-' :: (uuidHexGroup g 8 4 ++
   '-' :: (uuidVersionGroup g ++
   '-' :: (uuidVariantGroup g ++
   '-' :: uuidHexGroup g 20 12)))⟩

/-! ## Canonical fact model `KYCFactsV1` and its pydantic field constraints -/

/-- `[A-Z]` character class (stated on code points). -/
def upperAlpha (c : Char) : Bool := decide (65 ≤ c.toNat ∧ c.toNat ≤ 90)

/-- `[0-9]` character class (stated on code points). -/
def digitChar (c : Char) : Bool := decide (48 ≤ c.toNat ∧ c.toNat ≤ 57)

/-- The `pan_number` field constraint: pattern `^[A-Z]{5}[0-9]{4}[A-Z]{1}$`
(the `min_length=10` / `max_length=10` bounds are implied by the pattern). -/
def panNumberOk (s : String) : Bool :=
  match s.data with
  | [a, b, c, d, e, f, g, h, i, j] =>
    upperAlpha a && upperAlpha b && upperAlpha c && upperAlpha d &&
    upperAlpha e && digitChar f && digitChar g && digitChar h &&
    digitChar i && upperAlpha j
  | _ => false

/-- The `pan_name_match_score` / `dedupe_match_confidence` constraint
`ge=0.0, le=1.0`. -/
def score01Ok (q : ℚ) : Bool := decide (0 ≤ q ∧ q ≤ 1)

/-- The `customer_age` constraint `ge=18, le=120`. -/
def customerAgeOk (a : ℤ) : Bool := decide (18 ≤ a ∧ a ≤ 120)

/-- The optional `cibil_score` constraint `ge=300, le=900` (absent passes). -/
def cibilScoreOk : Option ℤ → Bool
  | none => true
  | some v => decide (300 ≤ v ∧ v ≤ 900)

/-- The optional `dedupe_match_confidence` constraint (absent passes). -/
def dedupeConfidenceOk : Option ℚ → Bool
  | none => true
  | some q => score01Ok q

/-- The canonical fact record `KYCFactsV1` (field values after pydantic
construction; `request_timestamp` is an opaque UTC timestamp). -/
structure KYCFactsV1 where
  pan_number : String
  pan_verification_status : PANVerificationStatus
  pan_name_match_score : ℚ
  customer_age : ℤ
  customer_state : CustomerState
  customer_type : CustomerType
  cibil_score : Option ℤ
  cibil_fetch_status : CIBILFetchStatus
  dedupe_match_found : Bool
  dedupe_match_confidence : Option ℚ
  correlation_id : String
  request_timestamp : ℤ
deriving DecidableEq, Repr

/-- Schema validity of a constructed record: every field constraint of
`KYCFactsV1`, with the correlation id satisfying the validator's pattern. -/
def KYCFactsV1.schemaValid (f : KYCFactsV1) : Bool :=
  panNumberOk f.pan_number &&
  score01Ok f.pan_name_match_score &&
  customerAgeOk f.customer_age &&
  cibilScoreOk f.cibil_score &&
  dedupeConfidenceOk f.dedupe_match_confidence &&
  matchesUuidPattern f.correlation_id

/-- The adapter's error: both `except` branches of `KYCFactAdapter.adapt`
re-raise a `ValueError` (with distinct messages), so every adaptation
failure is one of these two shapes — never an unhandled fault. -/
inductive AdaptationError where
  | invalidFactData (msg : String)
  | factAdaptationError (msg : String)
deriving DecidableEq, Repr

/-- Pydantic construction `KYCFactsV1(...)`: validates every field and, on
success, stores the validator-normalized (lowercased) correlation id; a
failed constraint raises `ValidationError`, which `adapt` re-raises as
`ValueError("Invalid fact data: ...")`. -/
def mkKYCFactsV1 (pan : String) (pvs : PANVerificationStatus)
    (nameScore : ℚ) (age : ℤ) (st : CustomerState) (ct : CustomerType)
    (cibil : Option ℤ) (cfs : CIBILFetchStatus) (dupFound : Bool)
    (dupConf : Option ℚ) (corr : String) (ts : ℤ) :
    Except AdaptationError KYCFactsV1 :=
  if panNumberOk pan && score01Ok nameScore && customerAgeOk age &&
     cibilScoreOk cibil && dedupeConfidenceOk dupConf &&
     matchesUuidPattern corr then
    .ok ⟨pan, pvs, nameScore, age, st, ct, cibil, cfs, dupFound, dupConf,
         pyLower corr, ts⟩
  else
    .error (.invalidFactData "validation failed")

/-! ## Backend DTOs and `KYCFactAdapter.adapt` -/

/-- `KarzaPANResponseDTO`. -/
structure KarzaPANResponseDTO where
  pan : String
  status : String
  name_on_pan : String
  name_match_percentage : ℚ
deriving DecidableEq, Repr

/-- `CustomerServiceDTO`; `date_of_birth` carries the `(year, month, day)`
triple parsed by `datetime.strptime(..., "%Y-%m-%d")`. -/
structure CustomerServiceDTO where
  customer_id : String
  dob_year : ℤ
  dob_month : ℤ
  dob_day : ℤ
  state_code : String
  segment : String
deriving DecidableEq, Repr

/-- `CIBILServiceDTO`. -/
structure CIBILServiceDTO where
  score : Option ℤ
  status_code : String
deriving DecidableEq, Repr

/-- `DedupeServiceDTO`. -/
structure DedupeServiceDTO where
  is_duplicate : Bool
  match_score : Option ℚ
deriving DecidableEq, Repr

/-- The two non-deterministic inputs of `adapt` (`datetime.now()` for the
age computation, `str(uuid4())` for a missing correlation id, and
`datetime.utcnow()` for the request timestamp), made explicit. -/
structure AdapterClock where
  todayY : ℤ
  todayM : ℤ
  todayD : ℤ
  freshUuid : String
  nowTs : ℤ
deriving DecidableEq, Repr

/-- `KYCFactAdapter.adapt`: normalizes, rescales, derives the age,
defaults the correlation id, and constructs the validated canonical
record (validation failure surfaces as an `AdaptationError`). -/
def KYCFactAdapter.adapt (karza : KarzaPANResponseDTO)
    (customer : CustomerServiceDTO) (cibil : CIBILServiceDTO)
    (dedupe : DedupeServiceDTO) (correlation_id : Option String)
    (clock : AdapterClock) : Except AdaptationError KYCFactsV1 :=
  let corr := correlation_id.getD clock.freshUuid
  mkKYCFactsV1
    (pyUpper karza.pan)
    (normalizePanStatus karza.status)
    (scaleTo01 karza.name_match_percentage)
    (computeAge clock.todayY clock.todayM clock.todayD
      customer.dob_year customer.dob_month customer.dob_day)
    (normalizeState customer.state_code)
    (normalizeSegment customer.segment)
    cibil.score
    (normalizeCibilStatus cibil.status_code)
    dedupe.is_duplicate
    (dedupe.match_score.map scaleTo01)
    corr
    clock.nowTs

/-! ## Registry-level validation (`validate_facts_against_registry`) -/

/-- `FactValidationError`, with one constructor per raise site. -/
inductive FactValidationError where
  | invalidPanFormat (pan : String)
  | ageBelowMinimum (age : ℤ)
deriving DecidableEq, Repr

/-- One character of CPython `str.isalnum` on the ASCII fragment:
digit, uppercase letter or lowercase letter (stated on code points). -/
def pyCharIsAlnum (c : Char) : Bool :=
  decide ((48 ≤ c.toNat ∧ c.toNat ≤ 57) ∨ (65 ≤ c.toNat ∧ c.toNat ≤ 90) ∨
          (97 ≤ c.toNat ∧ c.toNat ≤ 122))

/-- CPython `str.isalnum` on the ASCII fragment: non-empty and every
character a letter or digit. -/
def pyIsAlnum (s : String) : Bool :=
  !s.data.isEmpty && s.data.all pyCharIsAlnum

/-- `validate_facts_against_registry`: re-checks the PAN format
(`isalnum`) and the minimum age, raising `FactValidationError`. -/
def validate_facts_against_registry (f : KYCFactsV1) :
    Except FactValidationError Unit :=
  if ¬ pyIsAlnum f.pan_number then
    .error (.invalidPanFormat f.pan_number)
  else if f.customer_age < 18 then
    .error (.ageBelowMinimum f.customer_age)
  else
    .ok ()

/-! ## Mock rule engine (`MockRuleEngineService.evaluate`) -/

/-- The facts dictionary as the mock engine reads it: each key is looked
up with `facts.get(...)`, so each field is optional; `cibil_score` is
`facts.get("cibil_score")` (no default). -/
structure MockFacts where
  pan_verification_status : Option String
  customer_age : Option ℤ
  dedupe_match_found : Option Bool
  cibil_score : Option ℤ
deriving DecidableEq, Repr

/-- The mock engine's result: either a decision payload
(`kyc_eligibility_status`, `kyc_rejection_reason`) or the
`{"error": "Unknown rule"}` payload returned when
`"pan_verification_status"` is absent from the facts. -/
inductive MockResult where
  | decision (status : KYCEligibilityStatus)
             (reason : Option KYCRejectionReason)
  | unknownRule
deriving DecidableEq, Repr

/-- `MockRuleEngineService.evaluate`: hardcoded ordered threshold checks.
Note the CIBIL guard is `if cibil_score and cibil_score < 650`, so a
present score of `0` is falsy and skips the check. -/
def MockRuleEngineService.evaluate (facts : MockFacts) : MockResult :=
  match facts.pan_verification_status with
  | none => .unknownRule
  | some status =>
    if status ≠ "VERIFIED" then
      .decision .REJECTED (some .PAN_INVALID)
    else if facts.customer_age.getD 0 < 21 then
      .decision .REJECTED (some .AGE_BELOW_THRESHOLD)
    else if facts.dedupe_match_found.getD false then
      .decision .REJECTED (some .DUPLICATE_CUSTOMER)
    else
      match facts.cibil_score with
      | some c =>
        if c ≠ 0 ∧ c < 650 then .decision .REJECTED (some .CIBIL_SCORE_LOW)
        else .decision .APPROVED none
      | none => .decision .APPROVED none

/-! ## Rule repository (`RuleEngineService.load_rule` / `reload_rules`) -/

/-- An opaque parsed rule definition (the `json.load` output). -/
structure RuleDefinition where
  content : String
deriving DecidableEq, Repr

/-- The mutable state of `RuleEngineService`: the rules directory and the
`_rule_cache` dictionary (modelled as an association list; Python dict
insertion `cache[k] = v` is cons, and `lookup` finds the latest binding). -/
structure RuleEngineState where
  rules_directory : String
  rule_cache : List (String × RuleDefinition)
deriving DecidableEq, Repr

/-- The repository's failure modes: `ValueError("Rule not found: ...")`
on `FileNotFoundError` and `ValueError("Invalid rule format: ...")` on
`json.JSONDecodeError`. -/
inductive RuleLoadError where
  | ruleNotFound (path : String)
  | ruleFormat (path : String)
deriving DecidableEq, Repr

/-- `RuleEngineService.load_rule`, parameterized over the file system
(`storage`: full path to raw content, `none` = `FileNotFoundError`) and
the JSON parser (`parseJson`, `none` = `JSONDecodeError`). Returns the
definition together with the updated service state. -/
def load_rule (storage : String → Option String)
    (parseJson : String → Option RuleDefinition)
    (st : RuleEngineState) (rule_path : String) (use_cache : Bool) :
    Except RuleLoadError (RuleDefinition × RuleEngineState) :=
  match use_cache, st.rule_cache.lookup rule_path with
  | true, some cached => .ok (cached, st)
  | _, _ =>
    match storage (st.rules_directory ++ "/" ++ rule_path) with
    | none => .error (.ruleNotFound rule_path)
    | some raw =>
      match parseJson raw with
      | none => .error (.ruleFormat rule_path)
      | some ruleDef =>
        .ok (ruleDef,
             { st with rule_cache := (rule_path, ruleDef) :: st.rule_cache })

/-- `RuleEngineService.reload_rules`: `self._rule_cache.clear()`. -/
def reload_rules (st : RuleEngineState) : RuleEngineState :=
  { st with rule_cache := [] }

/-! ## Audit service (`AuditService.log_decision`) and the endpoint's
use of it (`evaluate_kyc_eligibility`, steps 3-4) -/

/-- The audit entry assembled inside `log_decision` (fields relevant to
the decision flow). -/
structure DecisionAuditLog where
  correlation_id : String
  rule_path : String
  decision_status : Option KYCEligibilityStatus
  execution_time_ms : ℚ
deriving DecidableEq, Repr

/-- What `log_decision` leaves behind: either the structured audit entry
was emitted, or the failure was logged via `logger.error`. -/
inductive AuditEffect where
  | emitted (entry : DecisionAuditLog)
  | errorLogged (msg : String)
deriving DecidableEq, Repr

/-- The body of the `try:` block in `AuditService.log_decision`: building
the `DecisionAuditLog` model and writing it to the audit logger may each
raise; a raise propagates out of the body. -/
def log_decision_body (buildEntry : Except String DecisionAuditLog)
    (writeEntry : DecisionAuditLog → Except String Unit) :
    Except String AuditEffect :=
  match buildEntry with
  | .error m => .error m
  | .ok entry =>
    match writeEntry entry with
    | .error m => .error m
    | .ok _ => .ok (.emitted entry)

/-- `AuditService.log_decision`: the whole body is wrapped in
`try ... except Exception: logger.error(...)`, so every failure is
converted into a logged error and nothing propagates. -/
def AuditService.log_decision (buildEntry : Except String DecisionAuditLog)
    (writeEntry : DecisionAuditLog → Except String Unit) : AuditEffect :=
  match log_decision_body buildEntry writeEntry with
  | .ok eff => eff
  | .error m => .errorLogged m

/-- Steps 3-4 of `evaluate_kyc_eligibility` after the decision has been
computed: emit the audit entry (best-effort) and return the response
built from the already-computed decision. -/
def respondAfterAudit (decision : MockResult)
    (buildEntry : Except String DecisionAuditLog)
    (writeEntry : DecisionAuditLog → Except String Unit) :
    MockResult × AuditEffect :=
  (decision, AuditService.log_decision buildEntry writeEntry)

/-! ## Helper lemmas -/

/-- Valid below-surrogate code points round-trip through `Char.ofNat`. -/
theorem toNat_ofNat_lt {n : Nat} (h : n < 55296) : (Char.ofNat n).toNat = n := by
  rw [Char.ofNat, dif_pos (Or.inl h)]
  rfl

/-- Characters outside `A`-`Z` are fixed by `pyCharLower`. -/
theorem pyCharLower_eq_self {c : Char} (h : c.toNat < 65 ∨ 90 < c.toNat) :
    pyCharLower c = c := by
  unfold pyCharLower
  rw [if_neg (by omega)]

/-- Hex-digit-hood survives ASCII lower-casing. -/
theorem isHexDigit_pyCharLower {c : Char} (h : isHexDigit c = true) :
    isHexDigit (pyCharLower c) = true := by
  unfold isHexDigit at h ⊢
  simp only [decide_eq_true_eq] at h ⊢
  unfold pyCharLower
  by_cases hc : 65 ≤ c.toNat ∧ c.toNat ≤ 90
  · rw [if_pos hc, toNat_ofNat_lt (by omega)]
    omega
  · rw [if_neg hc]
    omega

/-- `hexRun` commutes with ASCII lower-casing of the character list. -/
theorem hexRun_map_pyCharLower :
    ∀ (n : Nat) (l r : List Char), hexRun n l = some r →
      hexRun n (l.map pyCharLower) = some (r.map pyCharLower) := by
  intro n
  induction n with
  | zero =>
    intro l r h
    simp only [hexRun, Option.some.injEq] at h
    subst h
    rfl
  | succ n ih =>
    intro l r h
    cases l with
    | nil => simp [hexRun] at h
    | cons c cs =>
      unfold hexRun at h
      by_cases hc : isHexDigit c = true
      · rw [if_pos hc] at h
        simp only [List.map_cons]
        unfold hexRun
        rw [if_pos (isHexDigit_pyCharLower hc)]
        exact ih cs r h
      · rw [if_neg hc] at h
        cases h

/-- `hyphenHexRun` commutes with ASCII lower-casing. -/
theorem hyphenHexRun_map_pyCharLower {n : Nat} {l r : List Char}
    (h : hyphenHexRun n l = some r) :
    hyphenHexRun n (l.map pyCharLower) = some (r.map pyCharLower) := by
  cases l with
  | nil => cases h
  | cons c cs =>
    unfold hyphenHexRun at h
    split at h
    · rename_i rest heq
      injection heq with hc hcs
      subst hc
      subst hcs
      simp only [List.map_cons]
      rw [show pyCharLower '-' = '-' from by decide]
      exact hexRun_map_pyCharLower n cs r h
    · cases h

/-- `uuidCore` survives ASCII lower-casing. -/
theorem uuidCore_pyLower {s : String} (h : uuidCore s = true) :
    uuidCore (pyLower s) = true := by
  unfold uuidCore at h ⊢
  cases h1 : hexRun 8 s.data with
  | none => rw [h1] at h; cases h
  | some r1 =>
  rw [h1, Option.some_bind] at h
  cases h2 : hyphenHexRun 4 r1 with
  | none => rw [h2] at h; cases h
  | some r2 =>
  rw [h2, Option.some_bind] at h
  cases h3 : hyphenHexRun 4 r2 with
  | none => rw [h3] at h; cases h
  | some r3 =>
  rw [h3, Option.some_bind] at h
  cases h4 : hyphenHexRun 4 r3 with
  | none => rw [h4] at h; cases h
  | some r4 =>
  rw [h4, Option.some_bind] at h
  cases h5 : hyphenHexRun 12 r4 with
  | none => rw [h5] at h; cases h
  | some r5 =>
  rw [h5] at h
  have e0 : (pyLower s).data = s.data.map pyCharLower := rfl
  rw [e0, hexRun_map_pyCharLower 8 s.data r1 h1, Option.some_bind,
      hyphenHexRun_map_pyCharLower h2, Option.some_bind,
      hyphenHexRun_map_pyCharLower h3, Option.some_bind,
      hyphenHexRun_map_pyCharLower h4, Option.some_bind,
      hyphenHexRun_map_pyCharLower h5]
  simp only [List.isEmpty_eq_true] at h ⊢
  simp [h]

/-- The validator's pattern match survives ASCII lower-casing. -/
theorem matchesUuidPattern_pyLower {v : String}
    (h : matchesUuidPattern v = true) :
    matchesUuidPattern (pyLower v) = true := by
  unfold matchesUuidPattern at h ⊢
  simp only [Bool.or_eq_true, Bool.and_eq_true, beq_iff_eq] at h ⊢
  rcases h with h | ⟨hlast, hcore⟩
  · exact Or.inl (uuidCore_pyLower h)
  · refine Or.inr ⟨?_, ?_⟩
    · show (v.data.map pyCharLower).getLast? = some '\n'
      rw [List.getLast?_map, hlast]
      simp [show pyCharLower '\n' = '\n' from by decide]
    · have : (pyLower v).data.dropLast = (⟨v.data.dropLast⟩ : String).data.map pyCharLower := by
        show (v.data.map pyCharLower).dropLast = v.data.dropLast.map pyCharLower
        exact (List.map_dropLast pyCharLower v.data).symm
      show uuidCore ⟨(pyLower v).data.dropLast⟩ = true
      rw [this]
      exact uuidCore_pyLower hcore

/-- Generated hex digit characters are hex digits. -/
theorem isHexDigit_hexDigitChar (n : Nat) : isHexDigit (hexDigitChar n) = true := by
  have hb : ∀ m, m < 16 → isHexDigit ("0123456789abcdef".data.getD m '0') = true := by
    decide
  exact hb (n % 16) (Nat.mod_lt _ (by norm_num))

/-- Variant characters are hex digits. -/
theorem isHexDigit_uuidVariantChar (n : Nat) :
    isHexDigit (uuidVariantChar n) = true := by
  have hb : ∀ m, m < 4 → isHexDigit ("89ab".data.getD m '8') = true := by decide
  exact hb (n % 4) (Nat.mod_lt _ (by norm_num))

/-- Generated hex digit characters are already lowercase. -/
theorem pyCharLower_hexDigitChar (n : Nat) :
    pyCharLower (hexDigitChar n) = hexDigitChar n := by
  have hb : ∀ m, m < 16 →
      pyCharLower ("0123456789abcdef".data.getD m '0') =
        "0123456789abcdef".data.getD m '0' := by decide
  exact hb (n % 16) (Nat.mod_lt _ (by norm_num))

/-- Variant characters are already lowercase. -/
theorem pyCharLower_uuidVariantChar (n : Nat) :
    pyCharLower (uuidVariantChar n) = uuidVariantChar n := by
  have hb : ∀ m, m < 4 →
      pyCharLower ("89ab".data.getD m '8') = "89ab".data.getD m '8' := by decide
  exact hb (n % 4) (Nat.mod_lt _ (by norm_num))

/-- A run of hex digits of the right length is consumed by `hexRun`. -/
theorem hexRun_append {l r : List Char} {n : Nat} (hn : l.length = n)
    (h : ∀ c ∈ l, isHexDigit c = true) : hexRun n (l ++ r) = some r := by
  induction l generalizing n with
  | nil => subst hn; rfl
  | cons c cs ih =>
    subst hn
    simp only [List.length_cons, List.cons_append]
    unfold hexRun
    rw [if_pos (h c (List.mem_cons_self c cs))]
    exact ih rfl (fun d hd => h d (List.mem_cons_of_mem c hd))

/-- `hexRun` consumes a generated hex group. -/
theorem hexRun_uuidHexGroup (g : Nat → Nat) (a k : Nat) (rest : List Char) :
    hexRun k (uuidHexGroup g a k ++ rest) = some rest := by
  apply hexRun_append (by simp [uuidHexGroup])
  intro c hc
  simp only [uuidHexGroup, List.mem_map, List.mem_range] at hc
  obtain ⟨i, _, rfl⟩ := hc
  exact isHexDigit_hexDigitChar _

/-- `hexRun` consumes the version group. -/
theorem hexRun_uuidVersionGroup (g : Nat → Nat) (rest : List Char) :
    hexRun 4 (uuidVersionGroup g ++ rest) = some rest := by
  apply hexRun_append (by simp [uuidVersionGroup, uuidHexGroup])
  intro c hc
  simp only [uuidVersionGroup, uuidHexGroup, List.mem_cons, List.mem_map,
    List.mem_range] at hc
  rcases hc with rfl | ⟨i, _, rfl⟩
  · exact isHexDigit_hexDigitChar _
  · exact isHexDigit_hexDigitChar _

/-- `hexRun` consumes the variant group. -/
theorem hexRun_uuidVariantGroup (g : Nat → Nat) (rest : List Char) :
    hexRun 4 (uuidVariantGroup g ++ rest) = some rest := by
  apply hexRun_append (by simp [uuidVariantGroup, uuidHexGroup])
  intro c hc
  simp only [uuidVariantGroup, uuidHexGroup, List.mem_cons, List.mem_map,
    List.mem_range] at hc
  rcases hc with rfl | ⟨i, _, rfl⟩
  · exact isHexDigit_uuidVariantChar _
  · exact isHexDigit_hexDigitChar _

/-- The generated UUID text matches the validator's core pattern. -/
theorem uuidCore_uuid4String (g : Nat → Nat) :
    uuidCore (uuid4String g) = true := by
  unfold uuidCore
  have e0 : (uuid4String g).data =
      uuidHexGroup g 0 8 ++
      '-' :: (uuidHexGroup g 8 4 ++
      '-' :: (uuidVersionGroup g ++
      '-' :: (uuidVariantGroup g ++
      '-' :: uuidHexGroup g 20 12))) := rfl
  have ehy : ∀ (n : Nat) (l : List Char), hyphenHexRun n ('-' :: l) = hexRun n l :=
    fun _ _ => rfl
  have elast : uuidHexGroup g 20 12 = uuidHexGroup g 20 12 ++ [] := by simp
  rw [e0, hexRun_uuidHexGroup, Option.some_bind, ehy, hexRun_uuidHexGroup,
    Option.some_bind, ehy, hexRun_uuidVersionGroup, Option.some_bind, ehy,
    hexRun_uuidVariantGroup, Option.some_bind, ehy, elast,
    hexRun_uuidHexGroup]
  rfl

/-- The generated UUID text is already lowercase. -/
theorem pyLower_uuid4String (g : Nat → Nat) :
    pyLower (uuid4String g) = uuid4String g := by
  have hgrp : ∀ a k, (uuidHexGroup g a k).map pyCharLower = uuidHexGroup g a k := by
    intro a k
    unfold uuidHexGroup
    rw [List.map_map]
    apply List.map_congr_left
    intro i _
    exact pyCharLower_hexDigitChar _
  show (⟨(uuid4String g).data.map pyCharLower⟩ : String) = uuid4String g
  have e0 : (uuid4String g).data.map pyCharLower = (uuid4String g).data := by
    show (uuidHexGroup g 0 8 ++
      '-' :: (uuidHexGroup g 8 4 ++
      '-' :: (uuidVersionGroup g ++
      '-' :: (uuidVariantGroup g ++
      '-' :: uuidHexGroup g 20 12)))).map pyCharLower = _
    simp only [List.map_append, List.map_cons, uuidVersionGroup,
      uuidVariantGroup, hgrp, pyCharLower_hexDigitChar,
      pyCharLower_uuidVariantChar, show pyCharLower '-' = '-' from by decide]
    rfl
  rw [e0]

/-! ## Claim theorems -/

/-- C3: normalization of the verification status, jurisdiction code,
classification segment and credit fetch status is a total function into
the closed enumerations: a key whose case-normalized form is present in
the fixed lookup table maps to its table entry, and a key absent from
the table maps to the documented default (`ERROR` for verification
status, `OTHER` for jurisdiction, `RETAIL` for classification, `FAILURE`
for credit fetch status); the normalizers are total Lean functions, so
no input raises and no input is dropped. -/
theorem claim_C3_normalization_total :
    (∀ s v, KARZA_STATUS_MAP.lookup (pyLower s) = some v →
        normalizePanStatus s = v) ∧
    (∀ s, KARZA_STATUS_MAP.lookup (pyLower s) = none →
        normalizePanStatus s = .ERROR) ∧
    (∀ s v, STATE_CODE_MAP.lookup (pyUpper s) = some v →
        normalizeState s = v) ∧
    (∀ s, STATE_CODE_MAP.lookup (pyUpper s) = none →
        normalizeState s = .OTHER) ∧
    (∀ s v, CUSTOMER_SEGMENT_MAP.lookup (pyLower s) = some v →
        normalizeSegment s = v) ∧
    (∀ s, CUSTOMER_SEGMENT_MAP.lookup (pyLower s) = none →
        normalizeSegment s = .RETAIL) ∧
    (∀ s v, CIBIL_STATUS_MAP.lookup s = some v →
        normalizeCibilStatus s = v) ∧
    (∀ s, CIBIL_STATUS_MAP.lookup s = none →
        normalizeCibilStatus s = .FAILURE) := by
  refine ⟨?_, ?_, ?_, ?_, ?_, ?_, ?_, ?_⟩
  · intro s v h; simp [normalizePanStatus, h]
  · intro s h; simp [normalizePanStatus, h]
  · intro s v h; simp [normalizeState, h]
  · intro s h; simp [normalizeState, h]
  · intro s v h; simp [normalizeSegment, h]
  · intro s h; simp [normalizeSegment, h]
  · intro s v h; simp [normalizeCibilStatus, h]
  · intro s h; simp [normalizeCibilStatus, h]

/-- Witness for C3 at concrete inputs: a mapped vendor status (case
variant included), and unmapped strings hitting each default. -/
theorem claim_C3_normalization_total_witness :
    normalizePanStatus "VALID" = .VERIFIED ∧
    normalizePanStatus "bogus" = .ERROR ∧
    normalizeState "ka" = .KARNATAKA ∧
    normalizeState "XX" = .OTHER ∧
    normalizeSegment "Premium" = .PREMIUM ∧
    normalizeSegment "vip" = .RETAIL ∧
    normalizeCibilStatus "404" = .NO_HISTORY ∧
    normalizeCibilStatus "503" = .FAILURE :=
  ⟨claim_C3_normalization_total.1 "VALID" .VERIFIED rfl,
   claim_C3_normalization_total.2.1 "bogus" rfl,
   claim_C3_normalization_total.2.2.1 "ka" .KARNATAKA rfl,
   claim_C3_normalization_total.2.2.2.1 "XX" rfl,
   claim_C3_normalization_total.2.2.2.2.1 "Premium" .PREMIUM rfl,
   claim_C3_normalization_total.2.2.2.2.2.1 "vip" rfl,
   claim_C3_normalization_total.2.2.2.2.2.2.1 "404" .NO_HISTORY rfl,
   claim_C3_normalization_total.2.2.2.2.2.2.2 "503" rfl⟩

/-- C5: the 0-100 to [0,1] scale conversion equals `x / 100` on `[0, 100]`,
clamps to `1` above `100` (so `150` and `100` both map to `1`), clamps to
`0` below `0` (so `-10` and `0` both map to `0`), is monotonic, and is
idempotent under the clamp. -/
theorem claim_C5_scale_conversion :
    (∀ x : ℚ, 0 ≤ x → x ≤ 100 → scaleTo01 x = x / 100) ∧
    (∀ x : ℚ, 100 ≤ x → scaleTo01 x = 1) ∧
    (∀ x : ℚ, x ≤ 0 → scaleTo01 x = 0) ∧
    (scaleTo01 150 = 1 ∧ scaleTo01 100 = 1) ∧
    (scaleTo01 (-10) = 0 ∧ scaleTo01 0 = 0) ∧
    (∀ x y : ℚ, x ≤ y → scaleTo01 x ≤ scaleTo01 y) ∧
    (∀ x : ℚ, clamp01 (scaleTo01 x) = scaleTo01 x) := by
  have hin : ∀ x : ℚ, 0 ≤ x → x ≤ 100 → scaleTo01 x = x / 100 := by
    intro x h0 h100
    unfold scaleTo01 clamp01
    rw [max_eq_left (by positivity), min_eq_left (by linarith)]
  have hhi : ∀ x : ℚ, 100 ≤ x → scaleTo01 x = 1 := by
    intro x h
    unfold scaleTo01 clamp01
    rw [max_eq_left (by linarith), min_eq_right (by linarith)]
  have hlo : ∀ x : ℚ, x ≤ 0 → scaleTo01 x = 0 := by
    intro x h
    unfold scaleTo01 clamp01
    rw [max_eq_right (by linarith), min_eq_left (by norm_num)]
  have hidem : ∀ x : ℚ, clamp01 (scaleTo01 x) = scaleTo01 x := by
    intro x
    unfold scaleTo01 clamp01
    have h0 : (0 : ℚ) ≤ min (max (x / 100) 0) 1 :=
      le_min (le_max_right (x / 100) 0) (by norm_num)
    have h1 : min (max (x / 100) 0) 1 ≤ 1 := min_le_right _ _
    rw [max_eq_left h0, min_eq_left h1]
  refine ⟨hin, hhi, hlo, ⟨hhi 150 (by norm_num), hhi 100 le_rfl⟩,
          ⟨hlo (-10) (by norm_num), hlo 0 le_rfl⟩, ?_, hidem⟩
  intro x y hxy
  unfold scaleTo01 clamp01
  have : x / 100 ≤ y / 100 := by linarith
  exact min_le_min (max_le_max this le_rfl) le_rfl

/-- Witness for C5 at concrete inputs, discharging each hypothesis. -/
theorem claim_C5_scale_conversion_witness :
    scaleTo01 95 = 95 / 100 ∧ scaleTo01 150 = 1 ∧ scaleTo01 (-10) = 0 ∧
    scaleTo01 40 ≤ scaleTo01 60 :=
  ⟨claim_C5_scale_conversion.1 95 (by norm_num) (by norm_num),
   claim_C5_scale_conversion.2.1 150 (by norm_num),
   claim_C5_scale_conversion.2.2.1 (-10) (by norm_num),
   claim_C5_scale_conversion.2.2.2.2.2.1 40 60 (by norm_num)⟩

/-- C6: the derived age is `currentYear - birthYear - 1` exactly when the
current (month, day) lexicographically precedes the birth (month, day)
— in particular for a birth date one day after today's month/day — and
`currentYear - birthYear` otherwise. -/
theorem claim_C6_age_derivation :
    (∀ ty tm td dy dm dd : ℤ, (tm < dm ∨ (tm = dm ∧ td < dd)) →
        computeAge ty tm td dy dm dd = ty - dy - 1) ∧
    (∀ ty tm td dy dm dd : ℤ, ¬(tm < dm ∨ (tm = dm ∧ td < dd)) →
        computeAge ty tm td dy dm dd = ty - dy) ∧
    (∀ ty tm td dy : ℤ, computeAge ty tm td dy tm (td + 1) = ty - dy - 1) := by
  have hyes : ∀ ty tm td dy dm dd : ℤ, (tm < dm ∨ (tm = dm ∧ td < dd)) →
      computeAge ty tm td dy dm dd = ty - dy - 1 := by
    intro ty tm td dy dm dd h
    have hb : monthDayLt tm td dm dd = true := decide_eq_true h
    simp [computeAge, hb]
  refine ⟨hyes, ?_, ?_⟩
  · intro ty tm td dy dm dd h
    have hb : monthDayLt tm td dm dd = false := decide_eq_false h
    simp [computeAge, hb]
  · intro ty tm td dy
    exact hyes ty tm td dy tm (td + 1) (Or.inr ⟨rfl, by omega⟩)

/-- Witness for C6 at concrete dates (birth 1992-06-16, today 2026-06-15
gives 33; birth 1992-06-15, today 2026-06-15 gives 34). -/
theorem claim_C6_age_derivation_witness :
    computeAge 2026 6 15 1992 6 16 = 33 ∧ computeAge 2026 6 15 1992 6 15 = 34 :=
  ⟨claim_C6_age_derivation.1 2026 6 15 1992 6 16 (Or.inr ⟨rfl, by norm_num⟩),
   claim_C6_age_derivation.2.1 2026 6 15 1992 6 15 (by omega)⟩

/-- C1: on a facts mapping carrying the canonical KYC fields (all fields
present, credit score in the canonical `[300, 900]` range when present),
the mock evaluator applies its checks in the fixed order — verification
status, age, duplicate-found, credit score — returning `REJECTED` with
the corresponding reason at the first failing check and `APPROVED` with
no reason otherwise; in particular a record failing both the
verification-status check and the age check reports `PAN_INVALID`. -/
theorem claim_C1_mock_evaluator_order (facts : MockFacts) (pvs : String)
    (age : ℤ) (dup : Bool)
    (hpvs : facts.pan_verification_status = some pvs)
    (hage : facts.customer_age = some age)
    (hdup : facts.dedupe_match_found = some dup)
    (hcibil : ∀ c, facts.cibil_score = some c → 300 ≤ c ∧ c ≤ 900) :
    (pvs ≠ "VERIFIED" →
      MockRuleEngineService.evaluate facts =
        .decision .REJECTED (some .PAN_INVALID)) ∧
    (pvs = "VERIFIED" → age < 21 →
      MockRuleEngineService.evaluate facts =
        .decision .REJECTED (some .AGE_BELOW_THRESHOLD)) ∧
    (pvs = "VERIFIED" → 21 ≤ age → dup = true →
      MockRuleEngineService.evaluate facts =
        .decision .REJECTED (some .DUPLICATE_CUSTOMER)) ∧
    (∀ c, pvs = "VERIFIED" → 21 ≤ age → dup = false →
      facts.cibil_score = some c → c < 650 →
      MockRuleEngineService.evaluate facts =
        .decision .REJECTED (some .CIBIL_SCORE_LOW)) ∧
    (pvs = "VERIFIED" → 21 ≤ age → dup = false →
      (∀ c, facts.cibil_score = some c → 650 ≤ c) →
      MockRuleEngineService.evaluate facts = .decision .APPROVED none) ∧
    (pvs ≠ "VERIFIED" → age < 21 →
      MockRuleEngineService.evaluate facts =
        .decision .REJECTED (some .PAN_INVALID)) := by
  obtain ⟨f1, f2, f3, f4⟩ := facts
  simp only [MockFacts.pan_verification_status, MockFacts.customer_age,
    MockFacts.dedupe_match_found, MockFacts.cibil_score] at hpvs hage hdup hcibil
  subst hpvs
  subst hage
  subst hdup
  refine ⟨?_, ?_, ?_, ?_, ?_, ?_⟩
  · intro hne
    simp [MockRuleEngineService.evaluate, hne]
  · intro heq hlt
    subst heq
    simp [MockRuleEngineService.evaluate, hlt]
  · intro heq hge hd
    subst heq
    subst hd
    simp only [MockRuleEngineService.evaluate, ne_eq, not_true_eq_false,
      if_false, Option.getD_some]
    rw [if_neg (by omega)]
    simp
  · intro c heq hge hd hc hlt
    subst heq
    subst hd
    subst hc
    have h300 : 300 ≤ c ∧ c ≤ 900 := hcibil c rfl
    simp only [MockRuleEngineService.evaluate, ne_eq, not_true_eq_false,
      if_false, Option.getD_some]
    rw [if_neg (by omega), if_neg (by simp)]
    rw [if_pos ⟨by omega, hlt⟩]
  · intro heq hge hd hlarge
    subst heq
    subst hd
    simp only [MockRuleEngineService.evaluate, ne_eq, not_true_eq_false,
      if_false, Option.getD_some]
    rw [if_neg (by omega), if_neg (by simp)]
    cases h4 : f4 with
    | none => simp
    | some c =>
      have hc : 650 ≤ c := hlarge c h4
      have hne : ¬(¬c = 0 ∧ c < 650) := by omega
      simp [hne]
  · intro hne _
    simp [MockRuleEngineService.evaluate, hne]

/-- Witness for C1: a fully populated canonical facts mapping that fails
the verification-status and age checks together reports `PAN_INVALID`,
and a fully passing one is approved. -/
theorem claim_C1_mock_evaluator_order_witness :
    MockRuleEngineService.evaluate ⟨some "INVALID", some 17, some false, some 700⟩ =
      .decision .REJECTED (some .PAN_INVALID) ∧
    MockRuleEngineService.evaluate ⟨some "VERIFIED", some 32, some false, some 700⟩ =
      .decision .APPROVED none :=
  ⟨(claim_C1_mock_evaluator_order ⟨some "INVALID", some 17, some false, some 700⟩
      "INVALID" 17 false rfl rfl rfl
      (by intro c hc; injection hc with hc; omega)).2.2.2.2.2
      (by decide) (by decide),
   (claim_C1_mock_evaluator_order ⟨some "VERIFIED", some 32, some false, some 700⟩
      "VERIFIED" 32 false rfl rfl rfl
      (by intro c hc; injection hc with hc; omega)).2.2.2.2.1
      rfl (by norm_num) rfl
      (by intro c hc; injection hc with hc; omega)⟩

/-- C2: `adapt` either returns a record satisfying every schema
constraint or fails with the adapter's dedicated error (both `except`
branches re-raise the same `ValueError` wrapper, so no other fault
shape escapes); a record with age 17 always fails validation, age 18
passes the age constraint (inclusive boundary), and a partially valid
record is never returned. -/
theorem claim_C2_adapt_schema_gate :
    (∀ karza customer cibil dedupe corrId clock f,
        KYCFactAdapter.adapt karza customer cibil dedupe corrId clock = .ok f →
        f.schemaValid = true) ∧
    (∀ karza customer cibil dedupe corrId clock e,
        KYCFactAdapter.adapt karza customer cibil dedupe corrId clock = .error e →
        e = .invalidFactData "validation failed") ∧
    customerAgeOk 17 = false ∧
    customerAgeOk 18 = true ∧
    (∀ f : KYCFactsV1, f.customer_age = 17 → f.schemaValid = false) := by
  refine ⟨?_, ?_, by decide, by decide, ?_⟩
  · intro karza customer cibil dedupe corrId clock f h
    simp only [KYCFactAdapter.adapt, mkKYCFactsV1] at h
    split at h
    · next hcond =>
      injection h with h
      subst h
      simp only [Bool.and_eq_true] at hcond
      obtain ⟨⟨⟨⟨⟨hpan, hscore⟩, hage⟩, hcibil⟩, hconf⟩, hcorr⟩ := hcond
      simp only [KYCFactsV1.schemaValid, Bool.and_eq_true]
      exact ⟨⟨⟨⟨⟨hpan, hscore⟩, hage⟩, hcibil⟩, hconf⟩,
        matchesUuidPattern_pyLower hcorr⟩
    · cases h
  · intro karza customer cibil dedupe corrId clock e h
    simp only [KYCFactAdapter.adapt, mkKYCFactsV1] at h
    split at h
    · cases h
    · injection h with h
      exact h.symm
  · intro f h
    simp [KYCFactsV1.schemaValid, h, customerAgeOk]

/-- Evaluation of `adapt` at a concrete successful input (the rational
score is left as `scaleTo01 95`, since concrete `ℚ` normalization does
not reduce definitionally). -/
theorem adaptDemoEval :
    KYCFactAdapter.adapt ⟨"abcde1234f", "valid", "Test", 95⟩
      ⟨"cust-123", 1992, 1, 1, "KA", "retail"⟩ ⟨some 750, "200"⟩
      ⟨false, none⟩ (some "550e8400-e29b-41d4-a716-446655440000")
      ⟨2026, 10, 12, "ignored", 0⟩ =
    .ok ⟨"ABCDE1234F", .VERIFIED, scaleTo01 95, 34, .KARNATAKA, .RETAIL,
      some 750, .SUCCESS, false, none,
      "550e8400-e29b-41d4-a716-446655440000", 0⟩ := by
  have hsc : score01Ok (scaleTo01 95) = true := by
    simp only [score01Ok, decide_eq_true_eq, scaleTo01, clamp01]
    norm_num [min_def, max_def]
  simp only [KYCFactAdapter.adapt, mkKYCFactsV1]
  split
  · rfl
  · rename_i hg
    rw [hsc] at hg
    exact absurd (by decide) hg

/-- Evaluation of `adapt` at a concrete input whose PAN fails the
pattern: the dedicated adaptation error is raised. -/
theorem adaptDemoErrEval :
    KYCFactAdapter.adapt ⟨"bad!", "valid", "Test", 95⟩
      ⟨"cust-123", 1992, 1, 1, "KA", "retail"⟩ ⟨some 750, "200"⟩
      ⟨false, none⟩ (some "550e8400-e29b-41d4-a716-446655440000")
      ⟨2026, 10, 12, "ignored", 0⟩ =
    .error (.invalidFactData "validation failed") := by
  simp only [KYCFactAdapter.adapt, mkKYCFactsV1]
  split
  · rename_i hg
    rw [show panNumberOk (pyUpper "bad!") = false from by decide] at hg
    simp at hg
  · rfl

/-- Witness for C2: a concrete successful adaptation yields a fully
schema-valid record; a concrete malformed PAN fails with the dedicated
error; a concrete record with age 17 is invalid. -/
theorem claim_C2_adapt_schema_gate_witness :
    KYCFactsV1.schemaValid ⟨"ABCDE1234F", .VERIFIED, scaleTo01 95, 34,
      .KARNATAKA, .RETAIL, some 750, .SUCCESS, false, none,
      "550e8400-e29b-41d4-a716-446655440000", 0⟩ = true ∧
    (AdaptationError.invalidFactData "validation failed" =
      .invalidFactData "validation failed") ∧
    KYCFactsV1.schemaValid ⟨"ABCDE1234F", .VERIFIED, scaleTo01 95, 17,
      .KARNATAKA, .RETAIL, some 750, .SUCCESS, false, none,
      "550e8400-e29b-41d4-a716-446655440000", 0⟩ = false :=
  ⟨claim_C2_adapt_schema_gate.1 _ _ _ _ _ _ _ adaptDemoEval,
   claim_C2_adapt_schema_gate.2.1 _ _ _ _ _ _ _ adaptDemoErrEval,
   claim_C2_adapt_schema_gate.2.2.2.2 _ rfl⟩

/-- C4: `load_rule` returns the cached definition on a hit (and a second
load with no intervening invalidation returns the identical definition
and state); on a miss it reads storage, parses, inserts the definition
into the cache keyed by the path, and returns it; a missing file fails
with the rule-not-found error and unparsable content with the
rule-format error; after `reload_rules` clears the cache, a subsequent
load re-reads storage. -/
theorem claim_C4_rule_cache (storage : String → Option String)
    (parseJson : String → Option RuleDefinition) (st : RuleEngineState)
    (rule_path : String) :
    (∀ d, st.rule_cache.lookup rule_path = some d →
        load_rule storage parseJson st rule_path true = .ok (d, st)) ∧
    (∀ d st', load_rule storage parseJson st rule_path true = .ok (d, st') →
        load_rule storage parseJson st' rule_path true = .ok (d, st')) ∧
    (∀ raw d, st.rule_cache.lookup rule_path = none →
        storage (st.rules_directory ++ "/" ++ rule_path) = some raw →
        parseJson raw = some d →
        load_rule storage parseJson st rule_path true =
          .ok (d, { st with rule_cache := (rule_path, d) :: st.rule_cache }) ∧
        ((rule_path, d) :: st.rule_cache).lookup rule_path = some d) ∧
    (st.rule_cache.lookup rule_path = none →
        storage (st.rules_directory ++ "/" ++ rule_path) = none →
        load_rule storage parseJson st rule_path true =
          .error (.ruleNotFound rule_path)) ∧
    (∀ raw, st.rule_cache.lookup rule_path = none →
        storage (st.rules_directory ++ "/" ++ rule_path) = some raw →
        parseJson raw = none →
        load_rule storage parseJson st rule_path true =
          .error (.ruleFormat rule_path)) ∧
    ((reload_rules st).rule_cache = [] ∧
      ∀ raw d, storage (st.rules_directory ++ "/" ++ rule_path) = some raw →
        parseJson raw = some d →
        load_rule storage parseJson (reload_rules st) rule_path true =
          .ok (d, { rules_directory := st.rules_directory,
                    rule_cache := [(rule_path, d)] })) := by
  refine ⟨?_, ?_, ?_, ?_, ?_, rfl, ?_⟩
  · intro d h
    simp [load_rule, h]
  · intro d st' h
    cases hc : st.rule_cache.lookup rule_path with
    | some d0 =>
      simp [load_rule, hc] at h
      obtain ⟨hd, hst⟩ := h
      subst hd
      subst hst
      simp [load_rule, hc]
    | none =>
      simp only [load_rule, hc] at h
      cases hs : storage (st.rules_directory ++ "/" ++ rule_path) with
      | none => simp [hs] at h
      | some raw =>
        cases hp : parseJson raw with
        | none => simp [hs, hp] at h
        | some d1 =>
          simp only [hs, hp] at h
          injection h with h
          injection h with hd hst
          subst hd
          subst hst
          simp [load_rule, List.lookup]
  · intro raw d hc hs hp
    refine ⟨?_, by simp [List.lookup]⟩
    simp [load_rule, hc, hs, hp]
  · intro hc hs
    simp [load_rule, hc, hs]
  · intro raw hc hs hp
    simp [load_rule, hc, hs, hp]
  · intro raw d hs hp
    simp [load_rule, reload_rules, hs, hp]

/-- Witness for C4 against a one-file storage: a cold load populates the
cache, a second load returns the identical definition and state, and a
load after invalidation re-reads storage. -/
theorem claim_C4_rule_cache_witness :
    (load_rule (fun p => if p = "rules/kyc/pan_eligibility_v1.json"
        then some "raw" else none)
      (fun raw => if raw = "raw" then some ⟨"parsed"⟩ else none)
      ⟨"rules", []⟩ "kyc/pan_eligibility_v1.json" true =
      .ok (⟨"parsed"⟩, ⟨"rules", [("kyc/pan_eligibility_v1.json", ⟨"parsed"⟩)]⟩)) ∧
    (load_rule (fun p => if p = "rules/kyc/pan_eligibility_v1.json"
        then some "raw" else none)
      (fun raw => if raw = "raw" then some ⟨"parsed"⟩ else none)
      ⟨"rules", [("kyc/pan_eligibility_v1.json", ⟨"parsed"⟩)]⟩
      "kyc/pan_eligibility_v1.json" true =
      .ok (⟨"parsed"⟩, ⟨"rules", [("kyc/pan_eligibility_v1.json", ⟨"parsed"⟩)]⟩)) ∧
    (load_rule (fun p => if p = "rules/kyc/pan_eligibility_v1.json"
        then some "raw" else none)
      (fun raw => if raw = "raw" then some ⟨"parsed"⟩ else none)
      (reload_rules ⟨"rules", [("kyc/pan_eligibility_v1.json", ⟨"stale"⟩)]⟩)
      "kyc/pan_eligibility_v1.json" true =
      .ok (⟨"parsed"⟩, ⟨"rules", [("kyc/pan_eligibility_v1.json", ⟨"parsed"⟩)]⟩)) :=
  ⟨((claim_C4_rule_cache _ _ ⟨"rules", []⟩ _).2.2.1 "raw" ⟨"parsed"⟩
      rfl rfl rfl).1,
   (claim_C4_rule_cache _ _ ⟨"rules", []⟩ _).2.1 ⟨"parsed"⟩
      ⟨"rules", [("kyc/pan_eligibility_v1.json", ⟨"parsed"⟩)]⟩
      (((claim_C4_rule_cache _ _ ⟨"rules", []⟩ _).2.2.1 "raw" ⟨"parsed"⟩
        rfl rfl rfl).1),
   (claim_C4_rule_cache _ _
      ⟨"rules", [("kyc/pan_eligibility_v1.json", ⟨"stale"⟩)]⟩ _).2.2.2.2.2.2
      "raw" ⟨"parsed"⟩ rfl rfl⟩

/-- C7 counterexample: the credit-fetch-status lookup is NOT
case-insensitive — `"timeout"` and `"TIMEOUT"` differ only in casing
(identical ASCII lower-casings) yet normalize to different enumeration
values, because `adapt` applies no case folding to the CIBIL status
code before the lookup. -/
theorem claim_C7_counterexample :
    pyLower "TIMEOUT" = pyLower "timeout" ∧
    normalizeCibilStatus "timeout" = .TIMEOUT ∧
    normalizeCibilStatus "TIMEOUT" = .FAILURE ∧
    CIBILFetchStatus.TIMEOUT ≠ CIBILFetchStatus.FAILURE :=
  ⟨by decide, rfl, rfl, by decide⟩

/-- C7 amended: the verification-status and classification lookups are
case-insensitive via lower-casing, the jurisdiction lookup via
upper-casing, and the document identifier is normalized to uppercase in
the adapted record; the credit-fetch-status lookup alone is
case-sensitive (`"timeout"` maps to `TIMEOUT`, `"TIMEOUT"` falls back
to `FAILURE`). -/
theorem claim_C7_case_insensitive_lookups (s t : String) :
    (pyLower s = pyLower t → normalizePanStatus s = normalizePanStatus t) ∧
    (pyUpper s = pyUpper t → normalizeState s = normalizeState t) ∧
    (pyLower s = pyLower t → normalizeSegment s = normalizeSegment t) ∧
    (∀ karza customer cibil dedupe corrId clock f,
        KYCFactAdapter.adapt karza customer cibil dedupe corrId clock = .ok f →
        f.pan_number = pyUpper karza.pan) ∧
    (normalizeCibilStatus "timeout" = .TIMEOUT ∧
        normalizeCibilStatus "TIMEOUT" = .FAILURE) := by
  refine ⟨?_, ?_, ?_, ?_, ⟨rfl, rfl⟩⟩
  · intro h
    unfold normalizePanStatus
    rw [h]
  · intro h
    unfold normalizeState
    rw [h]
  · intro h
    unfold normalizeSegment
    rw [h]
  · intro karza customer cibil dedupe corrId clock f h
    simp only [KYCFactAdapter.adapt, mkKYCFactsV1] at h
    split at h
    · injection h with h
      subst h
      rfl
    · cases h

/-- Witness for the amended C7 at concrete inputs. -/
theorem claim_C7_case_insensitive_lookups_witness :
    normalizePanStatus "Valid" = normalizePanStatus "VALID" ∧
    normalizeState "ka" = normalizeState "Ka" ∧
    normalizeSegment "PREMIUM" = normalizeSegment "premium" ∧
    ("ABCDE1234F" : String) = pyUpper "abcde1234f" :=
  ⟨(claim_C7_case_insensitive_lookups "Valid" "VALID").1 (by decide),
   (claim_C7_case_insensitive_lookups "ka" "Ka").2.1 (by decide),
   (claim_C7_case_insensitive_lookups "PREMIUM" "premium").2.2.1 (by decide),
   (claim_C7_case_insensitive_lookups "" "").2.2.2.1
     ⟨"abcde1234f", "valid", "Test", 95⟩ ⟨"cust-123", 1992, 1, 1, "KA", "retail"⟩
     ⟨some 750, "200"⟩ ⟨false, none⟩
     (some "550e8400-e29b-41d4-a716-446655440000")
     ⟨2026, 10, 12, "ignored", 0⟩ _ adaptDemoEval⟩

/-- C8 counterexample: the validator accepts a supplied identifier that
is NOT in canonical UUID textual form — CPython's `$` anchor also
matches just before a trailing newline, so a canonical UUID followed by
`'\n'` passes validation and is stored (lowercased) with its newline. -/
theorem claim_C8_counterexample :
    validate_correlation_id "550e8400-e29b-41d4-a716-446655440000\n" =
      .ok "550e8400-e29b-41d4-a716-446655440000\n" ∧
    canonicalUuidForm "550e8400-e29b-41d4-a716-446655440000\n" = false :=
  ⟨rfl, rfl⟩

/-- C8 amended: when no correlation identifier is supplied, the freshly
generated identifier is in canonical UUID form and is stored verbatim
(it is already lowercase); when one is supplied, it is accepted exactly
when it matches the UUID pattern under Python `$`-anchor semantics
(canonical form, optionally followed by one trailing newline), is
stored lowercased, and any non-matching identifier makes adaptation
fail. -/
theorem claim_C8_correlation_id_handling :
    (∀ (g : Nat → Nat) karza customer cibil dedupe clock f,
        clock.freshUuid = uuid4String g →
        KYCFactAdapter.adapt karza customer cibil dedupe none clock = .ok f →
        f.correlation_id = uuid4String g) ∧
    (∀ g : Nat → Nat, canonicalUuidForm (uuid4String g) = true) ∧
    (∀ v karza customer cibil dedupe clock f,
        KYCFactAdapter.adapt karza customer cibil dedupe (some v) clock = .ok f →
        matchesUuidPattern v = true ∧ f.correlation_id = pyLower v) ∧
    (∀ v karza customer cibil dedupe clock, matchesUuidPattern v = false →
        KYCFactAdapter.adapt karza customer cibil dedupe (some v) clock =
          .error (.invalidFactData "validation failed")) := by
  refine ⟨?_, ?_, ?_, ?_⟩
  · intro g karza customer cibil dedupe clock f hfresh h
    simp only [KYCFactAdapter.adapt, mkKYCFactsV1] at h
    split at h
    · injection h with h
      subst h
      show pyLower ((none : Option String).getD clock.freshUuid) = uuid4String g
      rw [Option.getD_none, hfresh, pyLower_uuid4String]
    · cases h
  · intro g
    exact uuidCore_uuid4String g
  · intro v karza customer cibil dedupe clock f h
    simp only [KYCFactAdapter.adapt, mkKYCFactsV1] at h
    split at h
    · next hcond =>
      injection h with h
      subst h
      simp only [Bool.and_eq_true] at hcond
      exact ⟨hcond.2, rfl⟩
    · cases h
  · intro v karza customer cibil dedupe clock h
    simp only [KYCFactAdapter.adapt, mkKYCFactsV1, Option.getD_some]
    rw [if_neg]
    simp [h]

/-- Witness for the amended C8: the concrete generated identifier path,
the canonical form of a concrete generated identifier, the concrete
supplied-identifier path, and a concrete rejected identifier. -/
theorem claim_C8_correlation_id_handling_witness :
    canonicalUuidForm (uuid4String fun i => i) = true ∧
    matchesUuidPattern "550e8400-e29b-41d4-a716-446655440000" = true ∧
    (("550e8400-e29b-41d4-a716-446655440000" : String) =
      pyLower "550e8400-e29b-41d4-a716-446655440000") ∧
    KYCFactAdapter.adapt ⟨"abcde1234f", "valid", "Test", 95⟩
      ⟨"cust-123", 1992, 1, 1, "KA", "retail"⟩ ⟨some 750, "200"⟩
      ⟨false, none⟩ (some "not-a-uuid") ⟨2026, 10, 12, "ignored", 0⟩ =
      .error (.invalidFactData "validation failed") :=
  ⟨claim_C8_correlation_id_handling.2.1 (fun i => i),
   (claim_C8_correlation_id_handling.2.2.1
      "550e8400-e29b-41d4-a716-446655440000"
      ⟨"abcde1234f", "valid", "Test", 95⟩ ⟨"cust-123", 1992, 1, 1, "KA", "retail"⟩
      ⟨some 750, "200"⟩ ⟨false, none⟩ ⟨2026, 10, 12, "ignored", 0⟩ _
      adaptDemoEval).1,
   (claim_C8_correlation_id_handling.2.2.1
      "550e8400-e29b-41d4-a716-446655440000"
      ⟨"abcde1234f", "valid", "Test", 95⟩ ⟨"cust-123", 1992, 1, 1, "KA", "retail"⟩
      ⟨some 750, "200"⟩ ⟨false, none⟩ ⟨2026, 10, 12, "ignored", 0⟩ _
      adaptDemoEval).2,
   claim_C8_correlation_id_handling.2.2.2 "not-a-uuid"
      ⟨"abcde1234f", "valid", "Test", 95⟩ ⟨"cust-123", 1992, 1, 1, "KA", "retail"⟩
      ⟨some 750, "200"⟩ ⟨false, none⟩ ⟨2026, 10, 12, "ignored", 0⟩ rfl⟩

/-- C9: a failure anywhere in the audit body (building the entry or
writing it) is converted by `log_decision` into a logged error — it
never propagates — and the decision already computed is still returned
unchanged by the endpoint. -/
theorem claim_C9_audit_isolation :
    (∀ buildEntry writeEntry m,
        log_decision_body buildEntry writeEntry = .error m →
        AuditService.log_decision buildEntry writeEntry = .errorLogged m) ∧
    (∀ decision buildEntry writeEntry,
        (respondAfterAudit decision buildEntry writeEntry).1 = decision) := by
  constructor
  · intro b w m h
    simp [AuditService.log_decision, h]
  · intro d b w
    rfl

/-- Witness for C9: a concrete failing audit build is swallowed as a
logged error and the concrete decision is still returned. -/
theorem claim_C9_audit_isolation_witness :
    AuditService.log_decision (.error "sink down") (fun _ => .ok ()) =
      .errorLogged "sink down" ∧
    (respondAfterAudit (.decision .APPROVED none) (.error "sink down")
      (fun _ => .ok ())).1 = .decision .APPROVED none :=
  ⟨claim_C9_audit_isolation.1 (.error "sink down") (fun _ => .ok ())
      "sink down" rfl,
   claim_C9_audit_isolation.2 (.decision .APPROVED none) (.error "sink down")
      (fun _ => .ok ())⟩

/-- C10: on a record satisfying the schema constraints (PAN pattern and
age at least 18) the registry re-check always succeeds — both of its
`FactValidationError` branches are unreachable, since the pattern
implies `isalnum` and the schema age bound implies the age check. -/
theorem claim_C10_registry_check_unreachable (f : KYCFactsV1)
    (hpan : panNumberOk f.pan_number = true) (hage : 18 ≤ f.customer_age) :
    validate_facts_against_registry f = .ok () := by
  have hu : ∀ c : Char, upperAlpha c = true → pyCharIsAlnum c = true := by
    intro c hc
    unfold upperAlpha at hc
    unfold pyCharIsAlnum
    simp only [decide_eq_true_eq] at hc ⊢
    omega
  have hd : ∀ c : Char, digitChar c = true → pyCharIsAlnum c = true := by
    intro c hc
    unfold digitChar at hc
    unfold pyCharIsAlnum
    simp only [decide_eq_true_eq] at hc ⊢
    omega
  have halnum : pyIsAlnum f.pan_number = true := by
    unfold panNumberOk at hpan
    split at hpan
    · rename_i a b c d e c6 c7 c8 c9 j heq
      unfold pyIsAlnum
      rw [heq]
      simp only [Bool.and_eq_true] at hpan
      obtain ⟨⟨⟨⟨⟨⟨⟨⟨⟨h1, h2⟩, h3⟩, h4⟩, h5⟩, h6⟩, h7⟩, h8⟩, h9⟩, h10⟩ := hpan
      simp only [List.isEmpty_cons, Bool.not_false, Bool.true_and,
        List.all_cons, List.all_nil, Bool.and_true, Bool.and_eq_true]
      exact ⟨hu a h1, hu b h2, hu c h3, hu d h4, hu e h5, hd c6 h6,
        hd c7 h7, hd c8 h8, hd c9 h9, hu j h10⟩
    · cases hpan
  have hlt : ¬ (f.customer_age < 18) := by omega
  simp [validate_facts_against_registry, halnum, hlt]

/-- Witness for C10: a concrete schema-valid record passes the registry
re-check. -/
theorem claim_C10_registry_check_unreachable_witness :
    validate_facts_against_registry ⟨"ABCDE1234F", .VERIFIED, 0, 34,
      .KARNATAKA, .RETAIL, some 750, .SUCCESS, false, none,
      "550e8400-e29b-41d4-a716-446655440000", 0⟩ = .ok () :=
  claim_C10_registry_check_unreachable
    ⟨"ABCDE1234F", .VERIFIED, 0, 34, .KARNATAKA, .RETAIL, some 750, .SUCCESS,
      false, none, "550e8400-e29b-41d4-a716-446655440000", 0⟩
    (by decide) (by decide)

end BRE
